import Mathlib

/-!
Shallow embedding of `pappyproxy/compress.py` (class `Compress`), a Python 2
module that archives and restores a project's files, choosing a TAR+bz2
backend when the `bz2` module imports and a ZIP backend otherwise.

Modelling conventions:

* The current working directory is an association list of (path, contents);
  the archive location (`sessconfig.archive`, one path shared by both
  backends) is modelled separately as an `Option FileData` (`none` = no file
  on disk at the archive path).
* On-disk archive bytes are abstracted by `FileData`: a well-formed ZIP
  container with its member list, a well-formed bz2-compressed TAR container
  with its member list, arbitrary non-archive bytes (`rawData`, e.g. a
  zero-byte file), and containers whose writer crashed before the handle was
  closed, which fail both `zipfile.is_zipfile` and `tarfile.is_tarfile`.
* Python exceptions are values of `PyErr`.  Two Python 2 pitfalls present in
  the source are modelled faithfully:
  - `except e:` with `e` unbound: when the `try` body raises, CPython 2
    evaluates the handler expression `e`, which raises `NameError: name 'e'
    is not defined`, replacing the original exception.  `PappyException` is
    therefore never constructed on these paths.
  - `raise PappyException(...)` where `PappyException` is not imported in
    the module: evaluating the name raises `NameError: name 'PappyException'
    is not defined`.
* The methods of `Compress` are written without a `self` parameter and call
  each other by bare name; the embedding models each method body with the
  evident receiver bindings (`self.config`, `self.zip_archive` and
  `self.bz2_archive` are the same session object and the same archive path).
* `zipfile.ZipFile(path, mode="a")` creates the file when absent and loads
  the existing member list when the file is a valid ZIP; on any other
  existing data it starts an empty appended archive (the pre-existing bytes
  become an opaque prefix, not modelled).  `zf.write(pf)` raises `IOError`
  when `pf` does not exist.  `zf.extract(name)` / member lookup resolve a
  duplicated name to its last occurrence, and raise `KeyError` when the name
  is absent.  `zf.extractall()` writes every member in order.
* `tarfile.is_tarfile(path)` raises `IOError` when no file exists at `path`
  and returns `False` on non-TAR data.  `tarfile.open(path, "w:bz2")`
  truncates.  `TarFile.add` on a handle opened `"r:bz2"` raises `IOError`
  ("bad operation for mode 'r'") before touching the named file.
* In `tar_project`, the line `archive.close()` is indented with a tab to
  column 8 (Python 2 tab stop), i.e. at the level of the `if` statement: it
  runs even when the `is_tarfile` guard was false, where the name `archive`
  was never bound, raising `NameError: name 'archive' is not defined`.
-/

namespace Pappy

/-- Python exceptions that the modelled code can raise. -/
inductive PyErr where
  | ioError
  | keyError (member : String)
  | nameError (name : String)
  | pappyException (msg : String)
  deriving Repr, DecidableEq

/-- Bytes on disk at the archive path. -/
inductive FileData where
  | zipData (members : List (String × String))
  | tarBz2Data (members : List (String × String))
  | rawData (bytes : String)
  | unterminatedZip (members : List (String × String))
  | unterminatedTar (members : List (String × String))
  deriving Repr, DecidableEq

/-- `zipfile.is_zipfile` on existing data: true exactly for a well-formed
ZIP container (an unterminated one lacks the end-of-central-directory
record). -/
def is_zipfile : FileData → Bool
  | .zipData _ => true
  | _ => false

/-- `tarfile.is_tarfile` on existing data: true exactly for a well-formed
(bz2-compressed) TAR container. -/
def is_tarfile : FileData → Bool
  | .tarBz2Data _ => true
  | _ => false

/-- The filesystem state a call sees: project files in the working
directory, and the data at the session's archive path. -/
structure FS where
  files : List (String × String)
  archive : Option FileData
  deriving Repr, DecidableEq

/-- The session-configuration collaborator: `get_project_files()` returns
this list, fresh on each call. -/
structure Config where
  projectFiles : List String
  deriving Repr, DecidableEq

instance : DecidableEq (Except PyErr Unit) := fun a b =>
  match a, b with
  | Except.ok (), Except.ok () => isTrue rfl
  | Except.ok (), Except.error _ => isFalse (fun h => Except.noConfusion h)
  | Except.error _, Except.ok () => isFalse (fun h => Except.noConfusion h)
  | Except.error e1, Except.error e2 =>
    if h : e1 = e2 then isTrue (by rw [h])
    else isFalse (fun hh => h (Except.error.inj hh))

/-- Result of one compress/decompress call: the outcome (normal return or a
raised exception), the final working directory, the final archive data, and
whether every archive handle the call opened was closed again. -/
structure PRes where
  outcome : Except PyErr Unit
  files : List (String × String)
  archive : Option FileData
  handleClosed : Bool
  deriving Repr, DecidableEq

/-- Contents of a path in the working directory. -/
def fileLookup : List (String × String) → String → Option String
  | [], _ => none
  | (n, c) :: rest, name => if n = name then some c else fileLookup rest name

/-- Write (create or overwrite) one file in the working directory. -/
def writeFile : List (String × String) → String → String → List (String × String)
  | [], name, content => [(name, content)]
  | (n, c) :: rest, name, content =>
    if n = name then (name, content) :: rest
    else (n, c) :: writeFile rest name content

/-- Member lookup in an archive listing: a duplicated name resolves to its
last occurrence (CPython's `NameToInfo` keeps the last entry). -/
def zipLookupLast : List (String × String) → String → Option String
  | [], _ => none
  | (n, c) :: rest, name =>
    match zipLookupLast rest name with
    | some c2 => some c2
    | none => if n = name then some c else none

/-- `zf.extractall()`: write every member into the working directory, in
archive order (later duplicates overwrite earlier ones). -/
def extractAll : List (String × String) → List (String × String) → List (String × String)
  | fs, [] => fs
  | fs, (n, c) :: rest => extractAll (writeFile fs n c) rest

/-- The `for pf in project_files: handle.write/add(pf)` loop shared by
`zip_project` and `tar_project`: returns the members actually written (in
order) and, when some listed path does not exist in the working directory,
the `IOError` that the first failing write raised (members before it were
already written). -/
def writeMembers (fs : List (String × String)) :
    List String → List (String × String) × Option PyErr
  | [] => ([], none)
  | pf :: rest =>
    match fileLookup fs pf with
    | none => ([], some PyErr.ioError)
    | some c =>
      ((pf, c) :: (writeMembers fs rest).1, (writeMembers fs rest).2)

/-- The member list `zipfile.ZipFile(path, mode="a")` starts from: the
existing members when the path holds a valid ZIP, empty otherwise (absent
file, or existing non-ZIP data treated as an opaque prefix). -/
def appendInitMembers : Option FileData → List (String × String)
  | some (.zipData ms) => ms
  | _ => []

/-- Member list held in whatever data sits at the archive path. -/
def archiveMembers : Option FileData → List (String × String)
  | some (.zipData ms) => ms
  | some (.tarBz2Data ms) => ms
  | some (.unterminatedZip ms) => ms
  | some (.unterminatedTar ms) => ms
  | _ => []

/-- `Compress.zip_project`: open the archive in append mode (created when
absent), write each project file, close — all inside
`try: ... except e: raise PappyException(...)`.  When a write raises,
`zf.close()` is skipped (the archive stays unterminated, the handle leaks)
and the handler `except e:` raises `NameError` for the unbound `e`. -/
def zip_project (cfg : Config) (st : FS) : PRes :=
  match (writeMembers st.files cfg.projectFiles).2 with
  | none =>
    { outcome := Except.ok ()
      files := st.files
      archive := some (FileData.zipData
        (appendInitMembers st.archive ++ (writeMembers st.files cfg.projectFiles).1))
      handleClosed := true }
  | some _ =>
    { outcome := Except.error (PyErr.nameError "e")
      files := st.files
      archive := some (FileData.unterminatedZip
        (appendInitMembers st.archive ++ (writeMembers st.files cfg.projectFiles).1))
      handleClosed := false }

/-- `Compress.unzip_project`: reject the archive when `is_zipfile` fails
(the `raise PappyException("Project archive corrupted.")` evaluates an
unimported name, so a `NameError` surfaces); otherwise open it, extract the
`"config.json"` canary (a missing member raises `KeyError`, replaced by
`NameError` through `except e:`), then `extractall()`.  The source never
calls `zf.close()`, so the handle is left open on the paths that opened it.
`is_zipfile(path)` on an absent file raises `IOError`. -/
def unzip_project (st : FS) : PRes :=
  match st.archive with
  | none =>
    { outcome := Except.error PyErr.ioError
      files := st.files, archive := st.archive, handleClosed := true }
  | some (FileData.zipData ms) =>
    match zipLookupLast ms "config.json" with
    | none =>
      { outcome := Except.error (PyErr.nameError "e")
        files := st.files, archive := st.archive, handleClosed := false }
    | some c =>
      { outcome := Except.ok ()
        files := extractAll (writeFile st.files "config.json" c) ms
        archive := st.archive, handleClosed := false }
  | some _ =>
    { outcome := Except.error (PyErr.nameError "PappyException")
      files := st.files, archive := st.archive, handleClosed := true }

/-- `Compress.tar_project`: guarded by `if tarfile.is_tarfile(...)` — which
raises `IOError` when no file exists at the archive path, so a fresh archive
can never be created; when the guard holds, open `"w:bz2"` (truncating) and
add each project file (a missing file raises `IOError` with no handler, and
the handle is then never closed).  `archive.close()` sits at the `if`'s own
indentation level, so when the guard is false it runs with `archive` unbound
and raises `NameError`. -/
def tar_project (cfg : Config) (st : FS) : PRes :=
  match st.archive with
  | none =>
    { outcome := Except.error PyErr.ioError
      files := st.files, archive := st.archive, handleClosed := true }
  | some (FileData.tarBz2Data _) =>
    match (writeMembers st.files cfg.projectFiles).2 with
    | none =>
      { outcome := Except.ok ()
        files := st.files
        archive := some (FileData.tarBz2Data (writeMembers st.files cfg.projectFiles).1)
        handleClosed := true }
    | some e =>
      { outcome := Except.error e
        files := st.files
        archive := some (FileData.unterminatedTar (writeMembers st.files cfg.projectFiles).1)
        handleClosed := false }
  | some _ =>
    { outcome := Except.error (PyErr.nameError "archive")
      files := st.files, archive := st.archive, handleClosed := true }

/-- `Compress.untar_project`: when `is_tarfile` is false the body is skipped
silently (no `else`); when no file exists at the archive path `is_tarfile`
raises `IOError`; otherwise the archive is opened `"r:bz2"` in a `with`
block (so it is always closed again) and the loop calls `archive.add(pf)` —
not an extraction — which on a read-mode handle raises `IOError` at the
first iteration, replaced by `NameError` through `except e:`.  Nothing is
ever written to the working directory. -/
def untar_project (cfg : Config) (st : FS) : PRes :=
  match st.archive with
  | none =>
    { outcome := Except.error PyErr.ioError
      files := st.files, archive := st.archive, handleClosed := true }
  | some (FileData.tarBz2Data _) =>
    match cfg.projectFiles with
    | [] =>
      { outcome := Except.ok ()
        files := st.files, archive := st.archive, handleClosed := true }
    | _ :: _ =>
      { outcome := Except.error (PyErr.nameError "e")
        files := st.files, archive := st.archive, handleClosed := true }
  | some _ =>
    { outcome := Except.ok ()
      files := st.files, archive := st.archive, handleClosed := true }

/-- The process-wide backend value. -/
inductive Backend where
  | zip
  | tarBz2
  deriving Repr, DecidableEq

/-- The module-level probe: `bz2 = None; try: import bz2; except: print`.
The backend is TAR+bz2 exactly when the import succeeds. -/
def select_backend (bz2Available : Bool) : Backend :=
  if bz2Available then Backend.tarBz2 else Backend.zip

/-- Outcome of running the module-level probe itself: the bare `except`
swallows any import failure (printing a message), so module import never
propagates an exception; it only fixes the flag. -/
def moduleImportOutcome (bz2ImportSucceeds : Bool) : Except PyErr Bool :=
  Except.ok bz2ImportSucceeds

/-- `Compress.compress_project`: `if bz2: tar_project() else: zip_project()`
on the module-level flag fixed at import time. -/
def compress_project (bz2Available : Bool) (cfg : Config) (st : FS) : PRes :=
  if bz2Available then tar_project cfg st else zip_project cfg st

/-- `Compress.decompress_project`: `if bz2: untar_project() else:
unzip_project()` on the same module-level flag.  `unzip_project` takes no
project-file list: its body never calls `get_project_files`. -/
def decompress_project (bz2Available : Bool) (cfg : Config) (st : FS) : PRes :=
  if bz2Available then untar_project cfg st else unzip_project st

end Pappy

namespace Pappy

theorem fileLookup_writeFile (fs : List (String × String)) (name content q : String) :
    fileLookup (writeFile fs name content) q =
      if name = q then some content else fileLookup fs q := by
  induction fs with
  | nil => simp [writeFile, fileLookup]
  | cons p rest ih =>
    obtain ⟨n, c⟩ := p
    by_cases h1 : n = name
    · subst h1
      by_cases h2 : n = q
      · subst h2; simp [writeFile, fileLookup]
      · simp [writeFile, fileLookup, h2]
    · by_cases h2 : name = q
      · subst h2; simp [writeFile, fileLookup, h1, ih]
      · simp [writeFile, fileLookup, h1, h2, ih]

theorem zipLookupLast_append (a b : List (String × String)) (name : String) :
    zipLookupLast (a ++ b) name =
      match zipLookupLast b name with
      | some c => some c
      | none => zipLookupLast a name := by
  induction a with
  | nil => cases h : zipLookupLast b name <;> simp [zipLookupLast, h]
  | cons p rest ih =>
    obtain ⟨n, c⟩ := p
    cases h : zipLookupLast b name <;> simp [zipLookupLast, ih, h]

theorem zipLookupLast_eq_none (l : List (String × String)) (name : String)
    (h : ∀ p ∈ l, p.1 ≠ name) : zipLookupLast l name = none := by
  induction l with
  | nil => rfl
  | cons p rest ih =>
    obtain ⟨n, c⟩ := p
    have hn : n ≠ name := h (n, c) (List.mem_cons_self _ _)
    have hr := ih (fun q hq => h q (List.mem_cons_of_mem _ hq))
    simp [zipLookupLast, hr, hn]

theorem writeMembers_mem (fs : List (String × String)) (pfs : List String) :
    ∀ p ∈ (writeMembers fs pfs).1, p.1 ∈ pfs := by
  induction pfs with
  | nil => intro p hp; simp [writeMembers] at hp
  | cons pf rest ih =>
    intro p hp
    cases hl : fileLookup fs pf with
    | none => simp [writeMembers, hl] at hp
    | some c =>
      simp only [writeMembers, hl] at hp
      rcases List.mem_cons.mp hp with h | h
      · rw [h]; exact List.mem_cons_self _ _
      · exact List.mem_cons_of_mem _ (ih p h)

theorem fileLookup_extractAll (ms : List (String × String)) :
    ∀ (fs : List (String × String)) (name : String),
      fileLookup (extractAll fs ms) name =
        match zipLookupLast ms name with
        | some c => some c
        | none => fileLookup fs name := by
  induction ms with
  | nil => intro fs name; rfl
  | cons p rest ih =>
    obtain ⟨n, c⟩ := p
    intro fs name
    show fileLookup (extractAll (writeFile fs n c) rest) name = _
    rw [ih]
    cases h : zipLookupLast rest name with
    | some c2 => simp [zipLookupLast, h]
    | none =>
      simp only [zipLookupLast, h, fileLookup_writeFile]
      by_cases h2 : n = name <;> simp [h2]

end Pappy

namespace Pappy

/-- Claim C1: the spec says the TAR+bz2 decompression path extracts each
listed member out of the archive into the project directory, wrapping read
failures in a content error.  The code instead calls `archive.add(pf)` on a
handle opened for reading: on the smallest well-formed input (a valid
bz2-TAR archive containing `config.json` and a one-element file list) the
call raises (the read-mode `IOError` is masked to a `NameError` by the
`except e:` clause) and writes nothing; in general `untar_project` never
writes any file to the working directory. -/
theorem c1_untar_adds_instead_of_extracting :
    (untar_project ⟨["config.json"]⟩
        ⟨[], some (FileData.tarBz2Data [("config.json", "A")])⟩).outcome
      = Except.error (PyErr.nameError "e") ∧
    (untar_project ⟨["config.json"]⟩
        ⟨[], some (FileData.tarBz2Data [("config.json", "A")])⟩).files = [] ∧
    ∀ (cfg : Config) (st : FS), (untar_project cfg st).files = st.files := by
  refine ⟨rfl, rfl, ?_⟩
  intro cfg st
  obtain ⟨pfs⟩ := cfg
  obtain ⟨files, archive⟩ := st
  cases archive with
  | none => rfl
  | some fd => cases fd <;> cases pfs <;> rfl

/-- Claim C2: the spec's round-trip property.  On the TAR+bz2 backend
(bz2 available) with the project file `config.json` present and a valid
(empty) tar archive on disk, `compress_project` succeeds, but the following
`decompress_project` into an emptied directory raises (`archive.add` on a
read-mode handle, masked to `NameError "e"`) and restores nothing: the
original contents of `config.json` are not recovered. -/
theorem c2_tar_roundtrip_restores_nothing :
    (compress_project true ⟨["config.json"]⟩
        ⟨[("config.json", "A")], some (FileData.tarBz2Data [])⟩).outcome = Except.ok () ∧
    (decompress_project true ⟨["config.json"]⟩
        ⟨[], (compress_project true ⟨["config.json"]⟩
          ⟨[("config.json", "A")], some (FileData.tarBz2Data [])⟩).archive⟩).outcome
      = Except.error (PyErr.nameError "e") ∧
    fileLookup (decompress_project true ⟨["config.json"]⟩
        ⟨[], (compress_project true ⟨["config.json"]⟩
          ⟨[("config.json", "A")], some (FileData.tarBz2Data [])⟩).archive⟩).files
      "config.json" = none :=
  ⟨rfl, rfl, rfl⟩

/-- Claim C3: the spec says decompressing a non-archive file (for example a
zero-byte file) fails with a corruption error and writes nothing.  On a
zero-byte file at the archive path: the TAR+bz2 backend returns silently
with no error at all (the `is_tarfile` guard has no `else`), and the ZIP
backend raises `NameError` (the `raise PappyException("Project archive
corrupted.")` evaluates an unimported name) rather than the corruption
error.  Neither backend writes any file. -/
theorem c3_invalid_archive_behaviour :
    (decompress_project true ⟨["config.json"]⟩ ⟨[], some (FileData.rawData "")⟩).outcome
      = Except.ok () ∧
    (decompress_project true ⟨["config.json"]⟩ ⟨[], some (FileData.rawData "")⟩).files = [] ∧
    (decompress_project false ⟨["config.json"]⟩ ⟨[], some (FileData.rawData "")⟩).outcome
      = Except.error (PyErr.nameError "PappyException") ∧
    (decompress_project false ⟨["config.json"]⟩ ⟨[], some (FileData.rawData "")⟩).files = [] :=
  ⟨rfl, rfl, rfl, rfl⟩

/-- Claim C4: the spec says TAR+bz2 compression opens the archive for
writing and succeeds from the ABSENT state.  The code guards the whole body
with `if tarfile.is_tarfile(self.bz2_archive)`, which opens the archive
path: when no file exists there, `IOError` is raised and no archive is
created — the ABSENT → PRESENT_VALID transition never succeeds (shown at a
concrete input with the file list readable, and for every configuration and
working directory). -/
theorem c4_tar_compress_fails_when_archive_absent :
    (compress_project true ⟨["config.json"]⟩ ⟨[("config.json", "A")], none⟩).outcome
      = Except.error PyErr.ioError ∧
    (compress_project true ⟨["config.json"]⟩ ⟨[("config.json", "A")], none⟩).archive
      = none ∧
    ∀ (cfg : Config) (files : List (String × String)),
      (tar_project cfg ⟨files, none⟩).outcome = Except.error PyErr.ioError :=
  ⟨rfl, rfl, fun _ _ => rfl⟩

/-- Claim C5: the spec says a structurally valid ZIP archive without the
required `config.json` member makes decompression fail with a content error
before any other member is extracted.  The canary ordering does hold —
whenever the canary lookup fails nothing at all is extracted — but the
raised exception is `NameError` (the `except e:` clause evaluates the
unbound name `e`, masking the `KeyError`), not the wrapped content error
the `raise PappyException(...)` line intended. -/
theorem c5_missing_config_member_masked_error :
    (unzip_project ⟨[], some (FileData.zipData [("data.db", "D")])⟩).outcome
      = Except.error (PyErr.nameError "e") ∧
    (unzip_project ⟨[], some (FileData.zipData [("data.db", "D")])⟩).files = [] ∧
    ∀ (files ms : List (String × String)),
      zipLookupLast ms "config.json" = none →
        (unzip_project ⟨files, some (FileData.zipData ms)⟩).files = files ∧
        (unzip_project ⟨files, some (FileData.zipData ms)⟩).outcome
          = Except.error (PyErr.nameError "e") := by
  refine ⟨rfl, rfl, ?_⟩
  intro files ms h
  constructor <;> simp [unzip_project, h]

/-- Witness for the hypothesis of `c5_missing_config_member_masked_error`:
a one-member archive without `config.json`, extracted over a working
directory holding one unrelated file. -/
theorem c5_missing_config_member_masked_error_witness :
    zipLookupLast [("data2.db", "D")] "config.json" = none ∧
    (unzip_project ⟨[("keep.txt", "K")],
        some (FileData.zipData [("data2.db", "D")])⟩).files = [("keep.txt", "K")] ∧
    (unzip_project ⟨[("keep.txt", "K")],
        some (FileData.zipData [("data2.db", "D")])⟩).outcome
      = Except.error (PyErr.nameError "e") :=
  ⟨by decide,
    (c5_missing_config_member_masked_error.2.2 [("keep.txt", "K")] [("data2.db", "D")]
      (by decide)).1,
    (c5_missing_config_member_masked_error.2.2 [("keep.txt", "K")] [("data2.db", "D")]
      (by decide)).2⟩

/-- Counterexample to claim C6 as stated: with the file list naming a file
that does not exist in the working directory and a valid ZIP archive on
disk, `zf.write` raises inside the `try` block, `zf.close()` is skipped
(the handler re-raises), and the call ends with the handle still open. -/
theorem c6_counterexample_handle_leak :
    (zip_project ⟨["missing.db"]⟩
        ⟨[], some (FileData.zipData [("old.db", "O")])⟩).handleClosed = false ∧
    (zip_project ⟨["missing.db"]⟩
        ⟨[], some (FileData.zipData [("old.db", "O")])⟩).outcome
      = Except.error (PyErr.nameError "e") :=
  ⟨rfl, rfl⟩

/-- Claim C6, amended: the archive handle opened by ZIP compression is
closed on the successful exit path; on the exit path where adding a member
raises an error, `zf.close()` is skipped and the handle is not closed
(there is no try/finally). -/
theorem c6_zip_handle_closed_only_on_success (cfg : Config) (st : FS)
    (h : (zip_project cfg st).outcome = Except.ok ()) :
    (zip_project cfg st).handleClosed = true := by
  unfold zip_project at h ⊢
  cases hw : (writeMembers st.files cfg.projectFiles).2 with
  | none => rfl
  | some e => rw [hw] at h; exact Except.noConfusion h

/-- Witness for the hypothesis of `c6_zip_handle_closed_only_on_success`:
a one-file list whose file exists, compressed into a fresh archive. -/
theorem c6_zip_handle_closed_only_on_success_witness :
    (zip_project ⟨["a.txt"]⟩ ⟨[("a.txt", "A")], none⟩).outcome = Except.ok () ∧
    (zip_project ⟨["a.txt"]⟩ ⟨[("a.txt", "A")], none⟩).handleClosed = true :=
  ⟨rfl, c6_zip_handle_closed_only_on_success ⟨["a.txt"]⟩ ⟨[("a.txt", "A")], none⟩ rfl⟩

/-- Claim C7: the spec says a failure while adding members during ZIP
compression raises an `ArchiveWriteError` wrapping the cause.  The handler
`except e:` evaluates the unbound name `e` and raises `NameError` instead;
the wrapping `PappyException` is never constructed: at a concrete failing
input the outcome is `NameError "e"`, and on every input `zip_project`
either returns normally or raises exactly `NameError "e"` — never a
`PappyException`. -/
theorem c7_zip_write_error_never_wrapped :
    (zip_project ⟨["missing2.db"]⟩ ⟨[], none⟩).outcome
      = Except.error (PyErr.nameError "e") ∧
    ∀ (cfg : Config) (st : FS),
      (zip_project cfg st).outcome = Except.ok () ∨
      (zip_project cfg st).outcome = Except.error (PyErr.nameError "e") := by
  refine ⟨rfl, ?_⟩
  intro cfg st
  unfold zip_project
  cases hw : (writeMembers st.files cfg.projectFiles).2 with
  | none => left; rfl
  | some e => right; rfl

/-- Claim C8: ZIP compression opens the archive in append mode, so every
member of the pre-existing archive whose name is not in the new file list
is still present, and still resolves to its old contents, in the data left
at the archive path (on the success path the new valid archive, on the
failure path the unterminated data) — append never removes old members. -/
theorem c8_append_preserves_old_members (cfg : Config) (st : FS)
    (ms : List (String × String)) (name content : String)
    (harch : st.archive = some (FileData.zipData ms))
    (hmem : (name, content) ∈ ms)
    (hnot : name ∉ cfg.projectFiles) :
    (name, content) ∈ archiveMembers (zip_project cfg st).archive ∧
    zipLookupLast (archiveMembers (zip_project cfg st).archive) name
      = zipLookupLast ms name := by
  have hinit : appendInitMembers st.archive = ms := by rw [harch]; rfl
  have hnone : zipLookupLast (writeMembers st.files cfg.projectFiles).1 name = none := by
    apply zipLookupLast_eq_none
    intro p hp hcontra
    exact hnot (hcontra ▸ writeMembers_mem st.files cfg.projectFiles p hp)
  have harchm : archiveMembers (zip_project cfg st).archive
      = ms ++ (writeMembers st.files cfg.projectFiles).1 := by
    unfold zip_project
    cases hw : (writeMembers st.files cfg.projectFiles).2 with
    | none => simp [archiveMembers, hinit]
    | some e => simp [archiveMembers, hinit]
  rw [harchm]
  refine ⟨List.mem_append_left _ hmem, ?_⟩
  rw [zipLookupLast_append, hnone]

/-- Witness for the hypotheses of `c8_append_preserves_old_members`: an
archive holding `old.db`, recompressed with a file list holding only the
new file `new.txt`. -/
theorem c8_append_preserves_old_members_witness :
    (FS.mk [("new.txt", "N")] (some (FileData.zipData [("old.db", "O")]))).archive
      = some (FileData.zipData [("old.db", "O")]) ∧
    ("old.db", "O") ∈ [("old.db", "O")] ∧
    "old.db" ∉ (Config.mk ["new.txt"]).projectFiles ∧
    (("old.db", "O") ∈ archiveMembers (zip_project (Config.mk ["new.txt"])
        (FS.mk [("new.txt", "N")] (some (FileData.zipData [("old.db", "O")])))).archive ∧
      zipLookupLast (archiveMembers (zip_project (Config.mk ["new.txt"])
          (FS.mk [("new.txt", "N")]
            (some (FileData.zipData [("old.db", "O")])))).archive) "old.db"
        = zipLookupLast [("old.db", "O")] "old.db") :=
  ⟨rfl, by decide, by decide,
    c8_append_preserves_old_members (Config.mk ["new.txt"])
      (FS.mk [("new.txt", "N")] (some (FileData.zipData [("old.db", "O")])))
      [("old.db", "O")] "old.db" "O" rfl (by decide) (by decide)⟩

/-- Claim C9: the backend decision is the module-level flag set once at
module load time: loading never propagates an error (the bare `except`
swallows an import failure), the selected backend is TAR+bz2 exactly when
the bz2 import succeeded and ZIP otherwise, and both `compress_project` and
`decompress_project` dispatch on that same flag — for every fixed flag,
every call goes to the implementation of the selected backend. -/
theorem c9_backend_selection_deterministic :
    (∀ b : Bool, moduleImportOutcome b = Except.ok b) ∧
    select_backend true = Backend.tarBz2 ∧
    select_backend false = Backend.zip ∧
    (∀ (b : Bool) (cfg : Config) (st : FS),
      compress_project b cfg st =
        (match select_backend b with
         | Backend.tarBz2 => tar_project cfg st
         | Backend.zip => zip_project cfg st)) ∧
    (∀ (b : Bool) (cfg : Config) (st : FS),
      decompress_project b cfg st =
        (match select_backend b with
         | Backend.tarBz2 => untar_project cfg st
         | Backend.zip => unzip_project st)) := by
  refine ⟨fun b => rfl, rfl, rfl, ?_, ?_⟩ <;>
    (intro b cfg st; cases b <;> rfl)

/-- Claim C10: ZIP decompression never consults the project-file provider —
for any two configurations the call behaves identically — and on a
successful run it extracts every member present in the archive: any member
name resolving (at its last occurrence) to some contents ends up in the
working directory with those contents. -/
theorem c10_unzip_independent_of_file_list :
    (∀ (cfg1 cfg2 : Config) (st : FS),
      decompress_project false cfg1 st = decompress_project false cfg2 st) ∧
    (∀ (st : FS) (ms : List (String × String)) (name content : String),
      st.archive = some (FileData.zipData ms) →
      (unzip_project st).outcome = Except.ok () →
      zipLookupLast ms name = some content →
      fileLookup (unzip_project st).files name = some content) := by
  constructor
  · intro _ _ _; rfl
  · intro st ms name content harch hok hlook
    obtain ⟨files, archive⟩ := st
    have h2 : archive = some (FileData.zipData ms) := harch
    subst h2
    cases hc : zipLookupLast ms "config.json" with
    | none =>
      have : (unzip_project ⟨files, some (FileData.zipData ms)⟩).outcome
          = Except.error (PyErr.nameError "e") := by simp [unzip_project, hc]
      rw [this] at hok
      exact Except.noConfusion hok
    | some c =>
      have hfiles : (unzip_project ⟨files, some (FileData.zipData ms)⟩).files
          = extractAll (writeFile files "config.json" c) ms := by
        simp [unzip_project, hc]
      rw [hfiles, fileLookup_extractAll, hlook]

/-- Witness for the hypotheses of `c10_unzip_independent_of_file_list`: a
two-member archive containing `config.json` and `data.db`, decompressed
into an empty directory, restores `data.db`. -/
theorem c10_unzip_independent_of_file_list_witness :
    (FS.mk [] (some (FileData.zipData
        [("config.json", "C"), ("data.db", "D")]))).archive
      = some (FileData.zipData [("config.json", "C"), ("data.db", "D")]) ∧
    (unzip_project (FS.mk [] (some (FileData.zipData
        [("config.json", "C"), ("data.db", "D")])))).outcome = Except.ok () ∧
    zipLookupLast [("config.json", "C"), ("data.db", "D")] "data.db" = some "D" ∧
    fileLookup (unzip_project (FS.mk [] (some (FileData.zipData
        [("config.json", "C"), ("data.db", "D")])))).files "data.db" = some "D" :=
  ⟨rfl, rfl, by decide,
    c10_unzip_independent_of_file_list.2
      (FS.mk [] (some (FileData.zipData [("config.json", "C"), ("data.db", "D")])))
      [("config.json", "C"), ("data.db", "D")] "data.db" "D" rfl rfl (by decide)⟩

end Pappy
